import Mathlib

/-
  Verification development for the PolicyAI risk-analysis pipeline.

  Shallow embedding of the JavaScript sources:
    - src/utils/riskScoring.js      (calculateRiskScore, calculateConfidenceScore)
    - src/utils/validation.js       (validateFileUpload)
    - src/services/riskEngine.js    (RiskEngine, LiabilityAnalyzer)
    - src/services/policyClassifier.js + src/utils/policyTypes.js
    - src/services/analysisPipeline.js (validateInputs, processDocument, executeAnalysis)

  JavaScript number arithmetic on the fixed weight tables of the source is
  exact decimal-fraction arithmetic; it is embedded exactly, either as
  integers carrying an explicit scale of ten (risk scoring, whose weights are
  multiples of 0.1) or as explicit integer fractions (classifier scores).
  Strings are Lean Strings.  Functions that in the source are wrapped in
  try/catch and can only throw on malformed (untyped) input are embedded as
  total functions on the typed input space; analyzer calls that may throw are
  embedded as Except-valued functions.
-/

namespace PolicyAI

/-! JavaScript string helpers -/

/-- ASCII lower-casing of a character, as String.prototype.toLowerCase acts on
the ASCII keyword/pattern tables of the source. -/
def lowerChar (c : Char) : Char :=
  if 'A' ≤ c ∧ c ≤ 'Z' then Char.ofNat (c.toNat + 32) else c

/-- Embedding of JavaScript String.prototype.toLowerCase (ASCII range). -/
def jsToLower (s : String) : String :=
  ⟨s.data.map lowerChar⟩

/-- Contiguous-sublist test on character lists: does the needle occur inside
the haystack? -/
def isSubChars (needle : List Char) : List Char → Bool
  | [] => needle.isEmpty
  | c :: t => needle.isPrefixOf (c :: t) || isSubChars needle t

/-- Embedding of JavaScript String.prototype.includes. -/
def jsIncludes (hay needle : String) : Bool :=
  isSubChars needle.data hay.data

/-- Whitespace test used by trim / parseInt. -/
def isWs (c : Char) : Bool :=
  c = ' ' ∨ c = '\t' ∨ c = '\n' ∨ c = '\r'

/-- Embedding of JavaScript String.prototype.trim. -/
def jsTrim (s : String) : String :=
  ⟨((s.data.dropWhile isWs).reverse.dropWhile isWs).reverse⟩

/-- Numeric value of a digit list (most significant first). -/
def digitsVal (cs : List Char) : Nat :=
  cs.foldl (fun a c => a * 10 + (c.toNat - 48)) 0

/-- Embedding of JavaScript parseInt on decimal strings: skip leading
whitespace, optional sign, then a maximal run of digits; none when no digit
is found (NaN in the source). -/
def jsParseInt (s : String) : Option Int :=
  let cs := s.data.dropWhile isWs
  match cs with
  | '-' :: t =>
      let digs := t.takeWhile Char.isDigit
      if digs.isEmpty then none else some (-(digitsVal digs : Int))
  | '+' :: t =>
      let digs := t.takeWhile Char.isDigit
      if digs.isEmpty then none else some (digitsVal digs : Int)
  | _ =>
      let digs := cs.takeWhile Char.isDigit
      if digs.isEmpty then none else some (digitsVal digs : Int)

/-- Number rendering used inside generated message strings.  The source uses
Number.prototype.toLocaleString; the embedding renders plain digits (the
thousands separators play no role in any claim). -/
def numFmt (n : Int) : String :=
  toString n

/-! Risk factor model (src/services/riskEngine.js, src/utils/riskScoring.js).
The record collects every field of the analyzer-emitted risk objects that the
scoring, aggregation, compliance and critical-issue logic reads. -/

/-- One identified risk factor as emitted by an analyzer. -/
structure RiskFactor where
  id : String := ""
  type : String := ""
  category : String := ""
  severity : String := ""
  urgency : String := ""
  title : String := ""
  description : String := ""
  recommendation : String := ""
  potentialImpact : String := ""
  tags : List String := []
  reasons : List String := []
  potentialSavings : Option Int := none
  effort : Option String := none
  source : String := ""
deriving Repr, DecidableEq

/-- Severity weight table of calculateRiskScore; an unknown severity falls
back to 10 (the undefined-lookup-or-10 of the source). -/
def severityWeights (s : String) : ℤ :=
  if s = "critical" then 25
  else if s = "high" then 20
  else if s = "medium" then 15
  else if s = "low" then 10
  else if s = "minimal" then 5
  else 10

/-- Category multiplier table of calculateRiskScore, recorded in tenths so
that the arithmetic stays in exact integers: 12 stands for the source value
1.2, and the fallback 10 for the source fallback 1.0. -/
def categoryMultipliers10 (c : String) : ℤ :=
  if c = "coverage_gaps" then 12
  else if c = "liability_limits" then 11
  else if c = "deductible_risks" then 9
  else if c = "policy_terms" then 8
  else if c = "compliance" then 13
  else if c = "financial_risk" then 11
  else if c = "opportunity" then 5
  else 10

/-- The severity order used throughout the source (aggregateRiskFactors in
src/utils/riskScoring.js): minimal, low, medium, high, critical, in
increasing order of severity. -/
def severityOrder : List String :=
  ["minimal", "low", "medium", "high", "critical"]

/-- Math.round of the exact ratio a / b, for positive b: the floor of
a / b + 1 / 2, computed as an integer floor division. -/
def roundRatio (a b : ℤ) : ℤ :=
  Int.fdiv (2 * a + b) (2 * b)

/-- calculateRiskScore from src/utils/riskScoring.js: per factor, severity
weight times category multiplier is summed; the worst-case normalizer adds
25 times 1.3 per factor; the ratio is scaled to 0..100, rounded, and clamped.
Both the addends and the normalizer are held in tenths (weight times
`categoryMultipliers10`, and 25 times 13); the common scale of ten cancels in
the ratio. -/
def calculateRiskScore (riskFactors : List RiskFactor) : ℤ :=
  if riskFactors.length = 0 then 0
  else
    let totalScore10 : ℤ :=
      (riskFactors.map (fun r => severityWeights r.severity * categoryMultipliers10 r.category)).sum
    let maxPossibleScore10 : ℤ := (riskFactors.length : ℤ) * (severityWeights "critical" * 13)
    if maxPossibleScore10 = 0 then 0
    else
      min 100 (max 0 (roundRatio (totalScore10 * 100) maxPossibleScore10))

/-! calculateConfidenceScore (src/utils/riskScoring.js).  The analysis
metadata object is embedded by the features the function reads: the number of
keys of userProfile and structuredData (none encodes an absent object), the
enrichment-failure flag, the document quality string, and the number of
entries of analyzersUsed (none encodes an absent list). -/

/-- Analysis metadata consumed by calculateConfidenceScore. -/
structure AnalysisData where
  userProfile : Option Nat := none
  structuredData : Option Nat := none
  aiAnalysisFailed : Bool := false
  documentQuality : String := ""
  analyzersUsed : Option Nat := none
deriving Repr, DecidableEq

/-- Result of calculateConfidenceScore (score, level and the contributing
factor messages). -/
structure ConfidenceResult where
  score : ℤ
  level : String
  factors : List String
deriving Repr, DecidableEq

/-- calculateConfidenceScore from src/utils/riskScoring.js. -/
def calculateConfidenceScore (analysisData : AnalysisData) : ConfidenceResult :=
  let s0 : ℤ := 100
  let missingProfile : Bool :=
    match analysisData.userProfile with
    | none => true
    | some n => n < 3
  let s1 := if missingProfile then s0 - 20 else s0
  let f1 := if missingProfile then ["Limited user profile data"] else []
  let missingData : Bool :=
    match analysisData.structuredData with
    | none => true
    | some n => n < 5
  let s2 := if missingData then s1 - 15 else s1
  let f2 := if missingData then ["Limited policy data extraction"] else []
  let s3 := if analysisData.aiAnalysisFailed then s2 - 25 else s2
  let f3 := if analysisData.aiAnalysisFailed then ["AI analysis unavailable"] else []
  let poorDoc : Bool := analysisData.documentQuality = "poor"
  let s4 := if poorDoc then s3 - 30 else s3
  let f4 := if poorDoc then ["Poor document quality"] else []
  let manyAnalyzers : Bool :=
    match analysisData.analyzersUsed with
    | none => false
    | some n => 3 ≤ n
  let s5 := if manyAnalyzers then s4 + 10 else s4
  let f5 := if manyAnalyzers then ["Multiple analyzers used"] else []
  let clamped := max 0 (min 100 s5)
  let level := if 80 ≤ clamped then "high" else if 60 ≤ clamped then "medium" else "low"
  { score := clamped, level := level, factors := f1 ++ f2 ++ f3 ++ f4 ++ f5 }

/-- Reference penalty model, written from the specification text of section
4.7: start at 100; subtract 20 if the profile has fewer than 3 populated
fields; subtract 15 if structured extraction yielded fewer than 5 fields;
subtract 25 if enrichment failed; subtract 30 if document quality is poor;
add 10 if at least 3 analyzers succeeded; clamp to 0..100; level low below
60, medium below 80, high at 80 or above.  An absent object counts as zero
populated fields. -/
def confidenceSpecModel (analysisData : AnalysisData) : ℤ × String :=
  let profileFields : Nat := (analysisData.userProfile).getD 0
  let extractedFields : Nat := (analysisData.structuredData).getD 0
  let analyzerCount : Nat := (analysisData.analyzersUsed).getD 0
  let raw : ℤ := 100
    - (if profileFields < 3 then 20 else 0)
    - (if extractedFields < 5 then 15 else 0)
    - (if analysisData.aiAnalysisFailed then 25 else 0)
    - (if analysisData.documentQuality = "poor" then 30 else 0)
    + (if 3 ≤ analyzerCount then 10 else 0)
  let clamped := max 0 (min 100 raw)
  (clamped, if clamped < 60 then "low" else if clamped < 80 then "medium" else "high")

/-! Risk engine (src/services/riskEngine.js). -/

/-- Structured policy data fields read by the liability analyzer.  Section 6
of the specification fixes extracted structured fields as string-valued, so
the numeric branch of parseLimit is dead and the limit fields are embedded as
optional strings. -/
structure StructuredData where
  liabilityLimits : Option String := none
  propertyDamage : Option String := none
deriving Repr, DecidableEq

/-- Policy data object handed to the risk engine and its analyzers. -/
structure Policy where
  structuredData : Option StructuredData := none
  extractedText : String := ""
deriving Repr, DecidableEq

/-- Classification result fields read by the risk engine. -/
structure PolicyClassification where
  primaryType : String := "unknown"
deriving Repr, DecidableEq

/-- User profile fields read by the analyzers.  none encodes an absent
(undefined) field. -/
structure UserProfile where
  assets : Option Int := none
  income : Option Int := none
  homeValue : Option Int := none
  hasPool : Bool := false
  hasRentalProperty : Bool := false
  hasTeenDrivers : Bool := false
deriving Repr, DecidableEq

/-- JavaScript truthiness of an optional numeric field: absent and zero are
falsy. -/
def truthyI (v : Option Int) : Bool :=
  match v with
  | none => false
  | some n => n ≠ 0

/-- The JavaScript pattern `field or zero` on an optional numeric field. -/
def orZero (v : Option Int) : Int :=
  match v with
  | none => 0
  | some n => n

/-- Per-analyzer output record (success flag, emitted risks, analyzer-local
score, error message of a failed run). -/
structure AnalyzerResult where
  success : Bool := true
  error : String := ""
  risks : List RiskFactor := []
  score : ℤ := 0
deriving Repr, DecidableEq

/-- An analyzer as the engine calls it: it may throw, which the embedding
renders as an Except error. -/
def Analyzer : Type :=
  Policy → PolicyClassification → UserProfile → Except String AnalyzerResult

/-- RiskEngine.runAnalyzers: run every analyzer of the (name, analyzer) map;
a throwing analyzer is recorded as a failed result with an empty risk
list. -/
def runAnalyzers (analyzers : List (String × Analyzer)) (policy : Policy)
    (pc : PolicyClassification) (up : UserProfile) : List (String × AnalyzerResult) :=
  analyzers.map (fun p =>
    (p.1, match p.2 policy pc up with
      | .ok r => r
      | .error e => { success := false, error := e, risks := [], score := 0 }))

/-- RiskEngine.aggregateResults: flatten the risks of every successful
analyzer result, tagging each risk with its source analyzer and defaulting a
falsy category to general. -/
def aggregateResults (analyzerResults : List (String × AnalyzerResult)) : List RiskFactor :=
  analyzerResults.flatMap (fun p =>
    if p.2.success then
      p.2.risks.map (fun r =>
        { r with source := p.1, category := if r.category = "" then "general" else r.category })
    else [])

/-- RiskEngine.determineRiskLevel. -/
def determineRiskLevel (score : ℤ) : String :=
  if 80 ≤ score then "critical"
  else if 60 ≤ score then "high"
  else if 40 ≤ score then "medium"
  else if 20 ≤ score then "low"
  else "minimal"

/-- Projection of a risk factor produced by RiskEngine.identifyCriticalIssues. -/
structure CriticalIssue where
  id : String
  title : String
  description : String
  severity : String
  category : String
  recommendation : String
  potentialImpact : String
deriving Repr, DecidableEq

/-- RiskEngine.identifyCriticalIssues: the factors with critical severity or
immediate urgency, projected to the critical-issue record. -/
def identifyCriticalIssues (riskFactors : List RiskFactor) : List CriticalIssue :=
  (riskFactors.filter (fun r => r.severity = "critical" || r.urgency = "immediate")).map
    (fun r => { id := r.id, title := r.title, description := r.description,
                severity := r.severity, category := r.category,
                recommendation := r.recommendation, potentialImpact := r.potentialImpact })

/-- Projection of a risk factor produced by RiskEngine.findOpportunities. -/
structure Opportunity where
  id : String
  title : String
  description : String
  potentialSavings : Option Int
  effort : String
  category : String
  recommendation : String
deriving Repr, DecidableEq

/-- RiskEngine.findOpportunities. -/
def findOpportunities (riskFactors : List RiskFactor) : List Opportunity :=
  (riskFactors.filter (fun r => r.type = "opportunity" || r.category = "optimization")).map
    (fun r => { id := r.id, title := r.title, description := r.description,
                potentialSavings := r.potentialSavings, effort := r.effort.getD "medium",
                category := r.category, recommendation := r.recommendation })

/-- RiskEngine.assessCompliance: a compliance risk is a factor of category
compliance or carrying a regulatory tag. -/
def assessCompliance (riskFactors : List RiskFactor) (policyType : String) : String :=
  let complianceRisks := riskFactors.filter
    (fun r => r.category = "compliance" || r.tags.contains "regulatory")
  if complianceRisks.length = 0 then "compliant"
  else
    let criticalCompliance := complianceRisks.filter
      (fun r => r.severity = "critical" || r.severity = "high")
    if 0 < criticalCompliance.length then "non-compliant"
    else "review-needed"

/-- Aggregated output of RiskEngine.analyzeRisks.  The recommendation
synthesis of the source is omitted: its records carry Date.now timestamps as
identifiers and no claim reads them. -/
structure RiskAnalysis where
  success : Bool
  overallRiskScore : ℤ
  riskLevel : String
  riskFactors : List RiskFactor
  criticalIssues : List CriticalIssue
  opportunities : List Opportunity
  complianceStatus : String
  analyzerResults : List (String × AnalyzerResult)
deriving Repr, DecidableEq

/-- RiskEngine.analyzeRisks: run the analyzers, aggregate, score and derive
the report.  The surrounding try/catch of the source can only fire on an
exception escaping the helpers below; every analyzer exception is already
caught inside runAnalyzers, so the embedded body is total and the success
flag is true. -/
def analyzeRisks (analyzers : List (String × Analyzer)) (policy : Policy)
    (pc : PolicyClassification) (up : UserProfile) : RiskAnalysis :=
  let analyzerResults := runAnalyzers analyzers policy pc up
  let aggregatedRisks := aggregateResults analyzerResults
  let overallScore := calculateRiskScore aggregatedRisks
  { success := true
    overallRiskScore := overallScore
    riskLevel := determineRiskLevel overallScore
    riskFactors := aggregatedRisks
    criticalIssues := identifyCriticalIssues aggregatedRisks
    opportunities := findOpportunities aggregatedRisks
    complianceStatus := assessCompliance aggregatedRisks pc.primaryType
    analyzerResults := analyzerResults }

/-! Liability analyzer (LiabilityAnalyzer in src/services/riskEngine.js). -/

/-- LiabilityAnalyzer.parseLimit on an optional string field: absent or empty
gives 0; otherwise strip commas and dollar signs and parseInt, with 0 for an
unparseable string. -/
def parseLimit (limitStr : Option String) : Int :=
  match limitStr with
  | none => 0
  | some s =>
      if s = "" then 0
      else
        let cleaned : String := ⟨s.data.filter (fun c => ¬(c = ',' ∨ c = '$'))⟩
        (jsParseInt cleaned).getD 0

/-- The JavaScript pattern `value or default` on a number: zero falls through
to the default. -/
def orDefault (v d : Int) : Int :=
  if v = 0 then d else v

/-- Liability limits extracted from a policy. -/
structure LiabilityLimits where
  bodilyInjury : Int
  propertyDamage : Int
  totalLiability : Int
deriving Repr, DecidableEq

/-- LiabilityAnalyzer.extractLiabilityLimits: without structured data the
fixed defaults apply; with structured data each field that parses to zero
falls back to its default. -/
def extractLiabilityLimits (policy : Policy) : LiabilityLimits :=
  match policy.structuredData with
  | none => { bodilyInjury := 50000, propertyDamage := 25000, totalLiability := 100000 }
  | some data =>
      { bodilyInjury := orDefault (parseLimit data.liabilityLimits) 50000
        propertyDamage := orDefault (parseLimit data.propertyDamage) 25000
        totalLiability := orDefault (parseLimit data.liabilityLimits) 50000 +
          orDefault (parseLimit data.propertyDamage) 25000 }

/-- LiabilityAnalyzer.calculateRecommendedLimits (bodily injury, property
damage).  A comparison against an absent profile field is false in
JavaScript, hence the truthy guards. -/
def calculateRecommendedLimits (policyType : String) (up : UserProfile) : Int × Int :=
  let base : Int × Int :=
    if policyType = "auto" then (100000, 50000)
    else if policyType = "home" then (300000, 100000)
    else if policyType = "renters" then (100000, 50000)
    else (100000, 50000)
  let r1 : Int × Int :=
    if (match up.assets with | some a => decide (250000 < a) | none => false) then
      (max base.1 250000, max base.2 100000)
    else base
  if (match up.income with | some i => decide (75000 < i) | none => false) then
    (max r1.1 (orZero up.income * 2), r1.2)
  else r1

/-- LiabilityAnalyzer.analyzeLiabilityLimits: one factor per liability line
whose current limit is below the recommended limit; severity escalates with
the size of the gap.  The estimated-cost payload of the source records is
not represented. -/
def analyzeLiabilityLimits (policy : Policy) (policyType : String) (up : UserProfile) :
    List RiskFactor :=
  let currentLimits := extractLiabilityLimits policy
  let recommendedLimits := calculateRecommendedLimits policyType up
  let biRisks : List RiskFactor :=
    if currentLimits.bodilyInjury < recommendedLimits.1 then
      let gap := recommendedLimits.1 - currentLimits.bodilyInjury
      [{ id := "insufficient-bodily-injury-liability"
         type := "liability_risk"
         category := "liability_limits"
         severity := if 100000 < gap then "high" else "medium"
         title := "Insufficient Bodily Injury Liability"
         description := "Current bodily injury liability of $" ++
           numFmt currentLimits.bodilyInjury ++ " may be inadequate"
         recommendation := "Increase to $" ++ numFmt recommendedLimits.1 ++ " per person"
         potentialImpact := "Personal assets at risk for claims exceeding $" ++
           numFmt currentLimits.bodilyInjury
         urgency := "high" }]
    else []
  let pdRisks : List RiskFactor :=
    if currentLimits.propertyDamage < recommendedLimits.2 then
      let gap := recommendedLimits.2 - currentLimits.propertyDamage
      [{ id := "insufficient-property-damage-liability"
         type := "liability_risk"
         category := "liability_limits"
         severity := if 50000 < gap then "high" else "medium"
         title := "Insufficient Property Damage Liability"
         description := "Current property damage liability of $" ++
           numFmt currentLimits.propertyDamage ++ " may be inadequate"
         recommendation := "Increase to $" ++ numFmt recommendedLimits.2
         potentialImpact := "Risk of personal liability for expensive vehicle or property damage"
         urgency := "medium" }]
    else []
  biRisks ++ pdRisks

/-- LiabilityAnalyzer.assessAssetProtection. -/
def assessAssetProtection (policy : Policy) (up : UserProfile) : List RiskFactor :=
  if ¬(truthyI up.assets || truthyI up.income) then []
  else
    let totalAssets := orZero up.assets + orZero up.homeValue
    let annualIncome := orZero up.income
    let currentLimits := extractLiabilityLimits policy
    let totalLiability := currentLimits.bodilyInjury + currentLimits.propertyDamage
    let assetRisks : List RiskFactor :=
      if totalLiability < totalAssets then
        let exposedAssets := totalAssets - totalLiability
        [{ id := "inadequate-asset-protection"
           type := "liability_risk"
           category := "liability_limits"
           severity := if 100000 < exposedAssets then "critical" else "high"
           title := "Inadequate Asset Protection"
           description := "Your liability coverage may not fully protect your assets worth $" ++
             numFmt totalAssets
           recommendation := "Consider increasing liability limits or adding umbrella coverage"
           potentialImpact := "Up to $" ++ numFmt exposedAssets ++ " in assets could be at risk"
           urgency := "high" }]
      else []
    let incomeRisks : List RiskFactor :=
      if 0 < annualIncome ∧ totalLiability < annualIncome * 3 then
        [{ id := "insufficient-income-protection"
           type := "liability_risk"
           category := "liability_limits"
           severity := "medium"
           title := "Insufficient Income-Based Protection"
           description := "Liability coverage should be at least 3x your annual income"
           recommendation := "Consider coverage of at least $" ++ numFmt (annualIncome * 3)
           potentialImpact := "Future earnings could be garnished in major lawsuit"
           urgency := "medium" }]
      else []
    assetRisks ++ incomeRisks

/-- LiabilityAnalyzer.assessUmbrellaNeed: an opportunity factor when at least
two of the six qualifying indicators hold. -/
def assessUmbrellaNeed (policy : Policy) (up : UserProfile) : List RiskFactor :=
  let currentLimits := extractLiabilityLimits policy
  let totalLiability := currentLimits.bodilyInjury + currentLimits.propertyDamage
  let umbrellaIndicators : List (Bool × String) :=
    [ (500000 < orZero up.assets, "High net worth"),
      (100000 < orZero up.income, "High income"),
      (up.hasPool, "Swimming pool liability"),
      (up.hasRentalProperty, "Rental property exposure"),
      (up.hasTeenDrivers, "Teen driver risk"),
      (totalLiability < 500000, "Low underlying liability limits") ]
  let applicableIndicators := umbrellaIndicators.filter (fun i => i.1)
  if 2 ≤ applicableIndicators.length then
    [{ id := "umbrella-policy-recommended"
       type := "opportunity"
       category := "liability_limits"
       severity := "medium"
       title := "Umbrella Policy Recommended"
       description := "Multiple factors suggest you could benefit from umbrella liability coverage"
       recommendation := "Consider adding a personal umbrella policy for additional liability protection"
       potentialImpact := "Enhanced protection against major liability claims"
       urgency := "low"
       reasons := applicableIndicators.map (fun i => i.2) }]
  else []

/-! Policy classifier (src/services/policyClassifier.js with the tables of
src/utils/policyTypes.js).  Classifier scores are exact rationals built from
divisions by keyword counts; they are embedded as explicit integer fractions
(numerator, denominator) so that every score computation is exact and
kernel-computable.  All fractions built by the classifier have positive
denominators (`Frac.Pos` below), under which the comparison operations agree
with the rational order. -/

/-- An exact rational number num / den.  Every fraction the classifier
builds has a positive denominator. -/
structure Frac where
  num : Int
  den : Int
deriving Repr, DecidableEq

/-- Embed an integer. -/
def Frac.ofInt (n : Int) : Frac :=
  ⟨n, 1⟩

/-- Exact fraction addition. -/
def Frac.add (a b : Frac) : Frac :=
  ⟨a.num * b.den + b.num * a.den, a.den * b.den⟩

/-- Exact fraction subtraction. -/
def Frac.sub (a b : Frac) : Frac :=
  ⟨a.num * b.den - b.num * a.den, a.den * b.den⟩

/-- Exact fraction multiplication. -/
def Frac.mul (a b : Frac) : Frac :=
  ⟨a.num * b.num, a.den * b.den⟩

/-- Exact fraction division. -/
def Frac.div (a b : Frac) : Frac :=
  ⟨a.num * b.den, a.den * b.num⟩

/-- Order test by cross multiplication; agrees with the rational order when
both denominators are positive. -/
def Frac.ble (a b : Frac) : Bool :=
  decide (a.num * b.den ≤ b.num * a.den)

/-- Strict order test by cross multiplication (positive denominators). -/
def Frac.blt (a b : Frac) : Bool :=
  decide (a.num * b.den < b.num * a.den)

/-- Minimum under `Frac.ble`. -/
def Frac.fmin (a b : Frac) : Frac :=
  if a.ble b then a else b

/-- Maximum under `Frac.ble`. -/
def Frac.fmax (a b : Frac) : Frac :=
  if a.ble b then b else a

/-- The rational value of a fraction. -/
def Frac.val (a : Frac) : ℚ :=
  (a.num : ℚ) / (a.den : ℚ)

/-- Positivity of the denominator: the invariant under which the operations
above mirror rational arithmetic. -/
def Frac.Pos (a : Frac) : Prop :=
  0 < a.den

/-- Classification criteria of one policy type (src/utils/policyTypes.js).
The commonCoverages lists of the source are not read by the classifier and
are omitted. -/
structure TypeConfig where
  label : String
  category : String
  requiredKeywords : Option (List String) := none
  optionalKeywords : Option (List String) := none
  exclusionKeywords : Option (List String) := none
  structuredPatterns : Option (List (String × List String)) := none
deriving Repr, DecidableEq

/-- PolicyClassifier.matchesPattern for the array-of-strings patterns of the
table (the string and RegExp branches of the source are not exercised by the
table). -/
def matchesPattern (value : String) (pattern : List String) : Bool :=
  pattern.any (fun p => jsIncludes (jsToLower value) (jsToLower p))

/-- PolicyClassifier.checkStructuredPatterns: fraction of structured-data
patterns matched; a falsy (absent or empty) field value never matches. -/
def checkStructuredPatterns (structuredData : List (String × String))
    (patterns : List (String × List String)) : Frac :=
  let totalPatterns := patterns.length
  let matchCount := (patterns.filter (fun p =>
    match structuredData.lookup p.1 with
    | some v => v ≠ "" && matchesPattern v p.2
    | none => false)).length
  if 0 < totalPatterns then (Frac.ofInt matchCount).div (Frac.ofInt totalPatterns)
  else Frac.ofInt 0

/-- Score weight 0.4 of the required-keyword component. -/
def wRequired : Frac := ⟨4, 10⟩

/-- Score weight 0.3 of the optional-keyword and structured-pattern
components. -/
def wOptional : Frac := ⟨3, 10⟩

/-- Flat 0.2 penalty for a present exclusion keyword. -/
def wExclusion : Frac := ⟨2, 10⟩

/-- Accumulation part of PolicyClassifier.calculateTypeScore: the weighted
score and the total weight actually applied, before normalization.  The text
argument is the already lower-cased document text. -/
def typeScoreRaw (text : String) (structuredData : List (String × String))
    (typeConfig : TypeConfig) : Frac × Frac :=
  let z := Frac.ofInt 0
  let step1 : Frac × Frac :=
    match typeConfig.requiredKeywords with
    | some rk =>
        let requiredMatches := (rk.filter (fun k => jsIncludes text (jsToLower k))).length
        let requiredScore := (Frac.ofInt requiredMatches).div (Frac.ofInt rk.length)
        (z.add (requiredScore.mul wRequired), z.add wRequired)
    | none => (z, z)
  let step2 : Frac × Frac :=
    match typeConfig.optionalKeywords with
    | some ok =>
        let optionalMatches := (ok.filter (fun k => jsIncludes text (jsToLower k))).length
        let optionalScore :=
          ((Frac.ofInt optionalMatches).div (Frac.ofInt ok.length)).fmin (Frac.ofInt 1)
        (step1.1.add (optionalScore.mul wOptional), step1.2.add wOptional)
    | none => step1
  let step3 : Frac × Frac :=
    match typeConfig.exclusionKeywords with
    | some ek =>
        let exclusionMatches := (ek.filter (fun k => jsIncludes text (jsToLower k))).length
        if 0 < exclusionMatches then (step2.1.sub wExclusion, step2.2) else step2
    | none => step2
  match typeConfig.structuredPatterns with
  | some ps =>
      let patternScore := checkStructuredPatterns structuredData ps
      (step3.1.add (patternScore.mul wOptional), step3.2.add wOptional)
  | none => step3

/-- PolicyClassifier.calculateTypeScore: normalize the accumulated score by
the total weight applied and clamp to the unit interval; zero when no
component contributed weight. -/
def calculateTypeScore (text : String) (structuredData : List (String × String))
    (typeConfig : TypeConfig) : Frac :=
  let raw := typeScoreRaw text structuredData typeConfig
  if (Frac.ofInt 0).blt raw.2 then
    (Frac.ofInt 0).fmax ((Frac.ofInt 1).fmin (raw.1.div raw.2))
  else Frac.ofInt 0

/-- The POLICY_TYPES table of src/utils/policyTypes.js. -/
def POLICY_TYPES : List (String × TypeConfig) := [
  ("auto",
   { label := "Auto Insurance", category := "vehicle",
     requiredKeywords := some ["auto", "vehicle", "car", "automobile", "motor"],
     optionalKeywords := some ["liability", "collision", "comprehensive", "uninsured motorist",
       "bodily injury", "property damage", "personal injury protection",
       "medical payments", "rental", "towing", "roadside"],
     exclusionKeywords := some ["home", "house", "property", "life", "health", "business"],
     structuredPatterns := some [
       ("policyType", ["auto", "vehicle", "car", "motor"]),
       ("coverageType", ["auto", "vehicle", "automobile"])] }),
  ("home",
   { label := "Home Insurance", category := "property",
     requiredKeywords := some ["home", "house", "dwelling", "homeowner", "property"],
     optionalKeywords := some ["structure", "personal property", "liability",
       "additional living expenses", "medical payments", "fire", "theft", "vandalism",
       "weather", "replacement cost", "actual cash value", "deductible"],
     exclusionKeywords := some ["auto", "vehicle", "car", "life", "health", "business"],
     structuredPatterns := some [
       ("policyType", ["home", "homeowner", "dwelling", "property"]),
       ("coverageType", ["home", "homeowner", "property"])] }),
  ("renters",
   { label := "Renters Insurance", category := "property",
     requiredKeywords := some ["renter", "tenant", "rental", "apartment"],
     optionalKeywords := some ["personal property", "liability", "additional living expenses",
       "medical payments", "theft", "fire", "vandalism", "replacement cost",
       "actual cash value"],
     exclusionKeywords := some ["auto", "vehicle", "car", "life", "health", "homeowner"],
     structuredPatterns := some [
       ("policyType", ["renter", "tenant", "rental"]),
       ("coverageType", ["renter", "tenant"])] }),
  ("life",
   { label := "Life Insurance", category := "life",
     requiredKeywords := some ["life", "death", "beneficiary", "mortality"],
     optionalKeywords := some ["term", "whole", "universal", "variable", "premium",
       "death benefit", "cash value", "rider", "accidental death", "disability waiver",
       "convertible"],
     exclusionKeywords := some ["auto", "vehicle", "home", "property", "health"],
     structuredPatterns := some [
       ("policyType", ["life", "term life", "whole life", "universal life"]),
       ("coverageType", ["life"])] }),
  ("health",
   { label := "Health Insurance", category := "health",
     requiredKeywords := some ["health", "medical", "healthcare", "hmo", "ppo"],
     optionalKeywords := some ["deductible", "copay", "coinsurance", "out-of-pocket",
       "prescription", "preventive", "emergency", "specialist", "network", "provider",
       "claim", "benefit"],
     exclusionKeywords := some ["auto", "vehicle", "home", "property", "life"],
     structuredPatterns := some [
       ("policyType", ["health", "medical", "hmo", "ppo", "epo"]),
       ("coverageType", ["health", "medical"])] }),
  ("disability",
   { label := "Disability Insurance", category := "income",
     requiredKeywords := some ["disability", "income protection", "wage replacement"],
     optionalKeywords := some ["short term", "long term", "benefit period",
       "elimination period", "partial disability", "residual benefits", "cost of living",
       "own occupation", "any occupation"],
     exclusionKeywords := some ["auto", "vehicle", "home", "property", "life", "health"],
     structuredPatterns := some [
       ("policyType", ["disability", "income protection"]),
       ("coverageType", ["disability"])] }),
  ("umbrella",
   { label := "Umbrella Insurance", category := "liability",
     requiredKeywords := some ["umbrella", "excess liability", "personal liability"],
     optionalKeywords := some ["liability", "coverage", "excess", "additional",
       "protection", "lawsuit", "judgment", "settlement", "defense costs"],
     exclusionKeywords := some ["auto", "vehicle", "home", "life", "health"],
     structuredPatterns := some [
       ("policyType", ["umbrella", "excess liability", "personal liability"]),
       ("coverageType", ["umbrella", "liability"])] }),
  ("business",
   { label := "Business Insurance", category := "commercial",
     requiredKeywords := some ["business", "commercial", "general liability", "professional"],
     optionalKeywords := some ["property", "liability", "workers compensation", "cyber",
       "errors and omissions", "directors and officers", "employment practices",
       "business interruption", "equipment", "inventory"],
     exclusionKeywords := some ["personal", "individual", "family"],
     structuredPatterns := some [
       ("policyType", ["business", "commercial", "general liability"]),
       ("coverageType", ["business", "commercial"])] })]

/-- One entry of the ranked candidate list of classifyPolicy. -/
structure Candidate where
  type : String
  confidence : Frac
  label : String
  category : String
deriving Repr, DecidableEq

/-- The candidate list built by the classification loop of classifyPolicy:
one entry per policy type with a strictly positive score.  The text argument
is the already lower-cased document text. -/
def classificationsFor (normalizedText : String)
    (structuredData : List (String × String)) : List Candidate :=
  POLICY_TYPES.filterMap (fun p =>
    let score := calculateTypeScore normalizedText structuredData p.2
    if (Frac.ofInt 0).blt score then
      some { type := p.1, confidence := score, label := p.2.label, category := p.2.category }
    else none)

/-- Result record of classifyPolicy. -/
structure ClassifyResult where
  success : Bool
  primaryType : String
  confidence : Frac
  isConfident : Bool
  allClassifications : List Candidate
  suggestedTypes : List Candidate
deriving Repr, DecidableEq

/-- The fixed classifier confidence threshold 0.6. -/
def confidenceThreshold : Frac := ⟨6, 10⟩

/-- PolicyClassifier.classifyPolicy: score every policy type, keep the
positive scores, rank them by descending confidence (stable sort, as
Array.prototype.sort), and report the top candidate as primary exactly when
its confidence reaches the threshold.  An empty candidate list reports
confidence zero and a falsy isConfident.  The surrounding try/catch of the
source can only fire on untyped input (a non-string text), which the typed
embedding excludes, so success is true. -/
def classifyPolicy (text : String) (structuredData : List (String × String)) :
    ClassifyResult :=
  let normalizedText := jsToLower text
  let classifications := classificationsFor normalizedText structuredData
  let sorted := List.insertionSort
    (fun a b => Frac.ble b.confidence a.confidence = true) classifications
  match sorted with
  | [] =>
      { success := true, primaryType := "unknown", confidence := Frac.ofInt 0,
        isConfident := false, allClassifications := sorted, suggestedTypes := sorted.take 3 }
  | top :: rest =>
      let isConfident := confidenceThreshold.ble top.confidence
      { success := true
        primaryType := if isConfident then top.type else "unknown"
        confidence := top.confidence
        isConfident := isConfident
        allClassifications := top :: rest
        suggestedTypes := (top :: rest).take 3 }

/-! Input validation and pipeline orchestration
(src/utils/validation.js validateFileUpload and src/services/analysisPipeline.js). -/

/-- The uploaded file features read by validateFileUpload. -/
structure JsFile where
  name : String
  size : Nat
  type : String
deriving Repr, DecidableEq

/-- The mime types accepted by validateFileUpload. -/
def allowedFileTypes : List String :=
  ["application/pdf", "text/plain", "application/msword",
   "application/vnd.openxmlformats-officedocument.wordprocessingml.document",
   "image/jpeg", "image/png", "image/gif"]

/-- Validation outcome: validity flag plus the error messages (the warnings
of the source never affect validity and are not represented). -/
structure ValidationOutcome where
  isValid : Bool
  errors : List String
deriving Repr, DecidableEq

/-- validateFileUpload from src/utils/validation.js, applied to a present
file (validateInputs only calls it on a present file): oversize or empty
files, unsupported mime types and blank names are errors; small files, long
names and unexpected extensions only produce warnings. -/
def validateFileUpload (file : JsFile) : ValidationOutcome :=
  let sizeErrors : List String :=
    if 10 * 1024 * 1024 < file.size then ["File size exceeds 10MB limit"]
    else if file.size = 0 then ["File is empty"]
    else []
  let typeErrors : List String :=
    if ¬(allowedFileTypes.contains file.type) then
      ["File type " ++ file.type ++ " is not supported"]
    else []
  let nameErrors : List String :=
    if jsTrim file.name = "" then ["File name is required"] else []
  let errors := sizeErrors ++ typeErrors ++ nameErrors
  { isValid := errors.isEmpty, errors := errors }

/-- AnalysisPipeline.validateInputs: file-upload errors of a provided file
are fatal; manual policy-data validation problems are demoted to warnings
(not represented); missing both the file and any manual policy data is
fatal. -/
def validateInputs (file : Option JsFile) (policyData : List (String × String)) :
    ValidationOutcome :=
  let fileErrors : List String :=
    match file with
    | some f =>
        let fv := validateFileUpload f
        if ¬fv.isValid then fv.errors else []
    | none => []
  let missingErrors : List String :=
    if file.isNone && policyData.isEmpty then
      ["Either a policy document file or manual policy data must be provided"]
    else []
  let errors := fileErrors ++ missingErrors
  { isValid := errors.isEmpty, errors := errors }

/-- Document-processing result record. -/
structure DocResult where
  success : Bool := true
  error : String := ""
  fileName : String := ""
  fileSize : Nat := 0
  fileType : String := ""
  extractedText : String := ""
  structuredFields : List (String × String) := []
  processingWarning : String := ""
  processingError : String := ""
deriving Repr, DecidableEq

/-- AnalysisPipeline.processDocument, parameterized by the external document
processor (an out-of-scope collaborator that may fail or throw): an absent
file gives a failed result; a processor failure or exception is downgraded
to a successful empty-text result so the pipeline can continue. -/
def processDocument (docProcessor : JsFile → Except String DocResult) :
    Option JsFile → DocResult
  | none => { success := false, error := "No file provided for processing" }
  | some f =>
      match docProcessor f with
      | .ok r =>
          if r.success then r
          else
            { success := true, fileName := f.name, fileSize := f.size, fileType := f.type,
              extractedText := "", structuredFields := [], processingWarning := r.error }
      | .error e =>
          { success := true, fileName := f.name, fileSize := f.size, fileType := f.type,
            extractedText := "", structuredFields := [], processingError := e }

/-- Outcome record of one pipeline run. -/
structure PipelineOutcome where
  success : Bool
  failedStage : Option String := none
  error : String := ""
  documentResult : Option DocResult := none
  classificationResult : Option ClassifyResult := none
deriving Repr, DecidableEq

/-- AnalysisPipeline.executeAnalysis over the stages a claim reads: the
validation stage is the only one that can throw (and the stage counter of
the source never advances, so the failed stage is always named validation);
document processing and classification follow.  The risk-analysis,
enrichment and compilation stages each catch their own failures and replace
them with fallbacks, so they cannot affect the success of the run and are
not represented in the outcome.  In the classification stage the manual
policy data is spread over the extracted fields (in the association-list
embedding the overriding entries come first). -/
def executeAnalysis (docProcessor : JsFile → Except String DocResult)
    (file : Option JsFile) (policyData : List (String × String)) : PipelineOutcome :=
  let validation := validateInputs file policyData
  if ¬validation.isValid then
    { success := false
      failedStage := some "validation"
      error := "Validation failed: " ++ String.intercalate ", " validation.errors }
  else
    let documentResult := processDocument docProcessor file
    let classificationResult :=
      classifyPolicy documentResult.extractedText
        (policyData ++ documentResult.structuredFields)
    { success := true
      documentResult := some documentResult
      classificationResult := some classificationResult }

/-! Theorems -/

/-- Sanity link between `roundRatio` and Math.round of the exact rational
ratio. -/
theorem roundRatio_eq_floor (a b : ℤ) (hb : 0 < b) :
    roundRatio a b = ⌊(a : ℚ) / (b : ℚ) + 1/2⌋ := by
  have h2b : (0:ℤ) ≤ 2 * b := by omega
  have hcast : ((a : ℚ) / (b : ℚ) + 1/2) = ((2 * a + b : ℤ) : ℚ) / (((2 * b).toNat : ℕ) : ℚ) := by
    have hnat : (((2 * b).toNat : ℕ) : ℚ) = ((2 * b : ℤ) : ℚ) := by
      norm_cast
      omega
    have hbq : (b : ℚ) ≠ 0 := Int.cast_ne_zero.mpr (by omega)
    rw [hnat]
    push_cast
    field_simp
    ring
  have htn : (((2 * b).toNat : ℕ) : ℤ) = 2 * b := by omega
  rw [roundRatio, Int.fdiv_eq_ediv _ h2b, hcast, Rat.floor_intCast_div_natCast, htn]

set_option maxHeartbeats 1000000 in
/-- C7: calculateConfidenceScore agrees with the reference penalty model of
the specification (start at 100, the four penalties of 20, 15, 25 and 30,
the bonus of 10, the clamp to 0..100 and the low/medium/high level bands). -/
theorem c7_confidence_matches_spec_model (d : AnalysisData) :
    (calculateConfidenceScore d).score = (confidenceSpecModel d).1 ∧
    (calculateConfidenceScore d).level = (confidenceSpecModel d).2 := by
  obtain ⟨up, sd, ai, dq, au⟩ := d
  have hscore : (calculateConfidenceScore ⟨up, sd, ai, dq, au⟩).score =
      (confidenceSpecModel ⟨up, sd, ai, dq, au⟩).1 := by
    cases up <;> cases sd <;> cases au <;> cases ai <;>
      (simp only [calculateConfidenceScore, confidenceSpecModel, Option.getD,
         decide_eq_true_eq]
       split_ifs <;> first | rfl | contradiction | omega)
  refine ⟨hscore, ?_⟩
  have hc : (calculateConfidenceScore ⟨up, sd, ai, dq, au⟩).level =
      (if 80 ≤ (calculateConfidenceScore ⟨up, sd, ai, dq, au⟩).score then "high"
       else if 60 ≤ (calculateConfidenceScore ⟨up, sd, ai, dq, au⟩).score then "medium"
       else "low") := rfl
  have hm : (confidenceSpecModel ⟨up, sd, ai, dq, au⟩).2 =
      (if (confidenceSpecModel ⟨up, sd, ai, dq, au⟩).1 < 60 then "low"
       else if (confidenceSpecModel ⟨up, sd, ai, dq, au⟩).1 < 80 then "medium"
       else "high") := rfl
  rw [hc, hm, hscore]
  generalize (confidenceSpecModel ⟨up, sd, ai, dq, au⟩).1 = c
  split_ifs <;> first | rfl | omega

/-- Unfolding equation of aggregateResults on a cons cell. -/
theorem aggregateResults_cons (pr : String × AnalyzerResult) (tl : List (String × AnalyzerResult)) :
    aggregateResults (pr :: tl) =
      (if pr.2.success then
        pr.2.risks.map (fun r =>
          { r with source := pr.1, category := if r.category = "" then "general" else r.category })
       else []) ++ aggregateResults tl := by
  simp only [aggregateResults, List.flatMap_cons]

/-- Analyzer results without risks aggregate to the empty factor list. -/
theorem aggregateResults_eq_nil_of (rs : List (String × AnalyzerResult))
    (h : ∀ pr ∈ rs, pr.2.risks = []) : aggregateResults rs = [] := by
  induction rs with
  | nil => rfl
  | cons hd tl ih =>
      have h1 : hd.2.risks = [] := h hd (List.mem_cons_self _ _)
      have h2 : aggregateResults tl = [] := ih (fun pr hpr => h pr (List.mem_cons_of_mem _ hpr))
      rw [aggregateResults_cons, h1, h2]
      simp

/-- C10: calculateRiskScore of an empty factor list is 0, and an engine run
in which no analyzer emits a factor reports overall score 0 and risk level
minimal. -/
theorem c10_no_factors_zero_score :
    calculateRiskScore [] = 0 ∧
    ∀ (analyzers : List (String × Analyzer)) (p : Policy) (pc : PolicyClassification)
      (up : UserProfile),
      (∀ pr ∈ runAnalyzers analyzers p pc up, pr.2.risks = []) →
      (analyzeRisks analyzers p pc up).overallRiskScore = 0 ∧
      (analyzeRisks analyzers p pc up).riskLevel = "minimal" := by
  refine ⟨rfl, ?_⟩
  intro analyzers p pc up h
  have hagg : aggregateResults (runAnalyzers analyzers p pc up) = [] :=
    aggregateResults_eq_nil_of _ h
  constructor
  · show calculateRiskScore (aggregateResults (runAnalyzers analyzers p pc up)) = 0
    rw [hagg]
    rfl
  · show determineRiskLevel
      (calculateRiskScore (aggregateResults (runAnalyzers analyzers p pc up))) = "minimal"
    rw [hagg]
    rfl

/-- Witness for C10: a concrete engine run (one risk-free analyzer, one
throwing analyzer) scores 0 at level minimal. -/
theorem c10_witness :
    (analyzeRisks
        [("coverageGap", fun _ _ _ => Except.ok { success := true, risks := [], score := 0 }),
         ("liability", fun _ _ _ => Except.error "boom")]
        {} {} {}).overallRiskScore = 0 ∧
    (analyzeRisks
        [("coverageGap", fun _ _ _ => Except.ok { success := true, risks := [], score := 0 }),
         ("liability", fun _ _ _ => Except.error "boom")]
        {} {} {}).riskLevel = "minimal" :=
  c10_no_factors_zero_score.2 _ {} {} {} (by decide)

/-- C2: a throwing analyzer is recorded as success=false with an empty risk
list, contributes nothing to the aggregate, and the engine run still returns
success=true carrying exactly the remaining analyzers findings. -/
theorem c2_throwing_analyzer_isolated (pre post : List (String × Analyzer)) (nm : String)
    (a : Analyzer) (p : Policy) (pc : PolicyClassification) (up : UserProfile) (e : String)
    (ha : a p pc up = .error e) :
    runAnalyzers (pre ++ (nm, a) :: post) p pc up =
      runAnalyzers pre p pc up ++
        ((nm, { success := false, error := e, risks := [], score := 0 }) ::
          runAnalyzers post p pc up) ∧
    aggregateResults (runAnalyzers (pre ++ (nm, a) :: post) p pc up) =
      aggregateResults (runAnalyzers (pre ++ post) p pc up) ∧
    (analyzeRisks (pre ++ (nm, a) :: post) p pc up).success = true ∧
    (analyzeRisks (pre ++ (nm, a) :: post) p pc up).riskFactors =
      aggregateResults (runAnalyzers (pre ++ post) p pc up) := by
  have h1 : runAnalyzers (pre ++ (nm, a) :: post) p pc up =
      runAnalyzers pre p pc up ++
        ((nm, { success := false, error := e, risks := [], score := 0 }) ::
          runAnalyzers post p pc up) := by
    simp only [runAnalyzers, List.map_append, List.map_cons, ha]
  have h2 : aggregateResults (runAnalyzers (pre ++ (nm, a) :: post) p pc up) =
      aggregateResults (runAnalyzers (pre ++ post) p pc up) := by
    rw [h1]
    have hsplit : runAnalyzers (pre ++ post) p pc up =
        runAnalyzers pre p pc up ++ runAnalyzers post p pc up := by
      simp only [runAnalyzers, List.map_append]
    rw [hsplit]
    simp only [aggregateResults, List.flatMap_append, List.flatMap_cons]
    simp
  exact ⟨h1, h2, rfl, h2⟩

/-- Witness for C2: one healthy analyzer plus one throwing analyzer, at the
empty policy. -/
theorem c2_witness :
    aggregateResults (runAnalyzers
        ([("coverageGap", fun _ _ _ => Except.ok
            { success := true,
              risks := [{ id := "r1", category := "coverage_gaps", severity := "high" }],
              score := 15 })] ++
          ("liability", fun _ _ _ => Except.error "boom") :: []) {} {} {}) =
      aggregateResults (runAnalyzers
        ([("coverageGap", fun _ _ _ => Except.ok
            { success := true,
              risks := [{ id := "r1", category := "coverage_gaps", severity := "high" }],
              score := 15 })] ++ []) {} {} {}) ∧
    (analyzeRisks
        ([("coverageGap", fun _ _ _ => Except.ok
            { success := true,
              risks := [{ id := "r1", category := "coverage_gaps", severity := "high" }],
              score := 15 })] ++
          ("liability", fun _ _ _ => Except.error "boom") :: []) {} {} {}).success = true :=
  ⟨(c2_throwing_analyzer_isolated _ _ _ _ {} {} {} "boom" rfl).2.1,
   (c2_throwing_analyzer_isolated _ _ _ _ {} {} {} "boom" rfl).2.2.1⟩

/-- Counterexample to C8 as stated: a factor tagged regulatory but of a
non-compliance category makes the engine report review-needed, although the
list contains no compliance-category factor (the claim demands compliant). -/
theorem c8_counterexample :
    (∀ r ∈ [({ category := "liability_limits", tags := ["regulatory"], severity := "low" } :
        RiskFactor)], r.category ≠ "compliance") ∧
    assessCompliance
      [{ category := "liability_limits", tags := ["regulatory"], severity := "low" }]
      "auto" = "review-needed" := by
  exact ⟨by decide, by decide⟩

/-- C8 amended: complianceStatus is compliant exactly when no factor has
category compliance or a regulatory tag; non-compliant exactly when such a
factor has severity high or critical; review-needed exactly when such
factors exist but none is high or critical. -/
theorem c8_amended_compliance_characterization (l : List RiskFactor) (t : String) :
    ((assessCompliance l t = "compliant") ↔
      ∀ r ∈ l, ¬(r.category = "compliance" ∨ r.tags.contains "regulatory" = true)) ∧
    ((assessCompliance l t = "non-compliant") ↔
      ∃ r ∈ l, (r.category = "compliance" ∨ r.tags.contains "regulatory" = true) ∧
        (r.severity = "critical" ∨ r.severity = "high")) ∧
    ((assessCompliance l t = "review-needed") ↔
      ((∃ r ∈ l, r.category = "compliance" ∨ r.tags.contains "regulatory" = true) ∧
        ¬∃ r ∈ l, (r.category = "compliance" ∨ r.tags.contains "regulatory" = true) ∧
          (r.severity = "critical" ∨ r.severity = "high"))) := by
  simp only [assessCompliance]
  by_cases h0 : (l.filter (fun r => r.category = "compliance" || r.tags.contains "regulatory")).length = 0
  · rw [if_pos h0]
    rw [List.length_eq_zero, List.filter_eq_nil_iff] at h0
    refine ⟨?_, ?_, ?_⟩
    · simp only [true_iff]
      intro r hr
      have := h0 r hr
      simpa using this
    · constructor
      · intro h
        exact absurd h (by decide)
      · rintro ⟨r, hr, hp, _⟩
        have := h0 r hr
        simp only [Bool.or_eq_true, decide_eq_true_eq] at this
        exact absurd hp (by simpa using this)
    · constructor
      · intro h
        exact absurd h (by decide)
      · rintro ⟨⟨r, hr, hp⟩, _⟩
        have := h0 r hr
        simp only [Bool.or_eq_true, decide_eq_true_eq] at this
        exact absurd hp (by simpa using this)
  · rw [if_neg h0]
    have hex : ∃ r ∈ l, r.category = "compliance" ∨ r.tags.contains "regulatory" = true := by
      rcases List.exists_mem_of_length_pos (Nat.pos_of_ne_zero h0) with ⟨r, hr⟩
      rw [List.mem_filter] at hr
      refine ⟨r, hr.1, ?_⟩
      simpa using hr.2
    by_cases h1 : 0 < ((l.filter (fun r => r.category = "compliance" || r.tags.contains "regulatory")).filter
        (fun r => r.severity = "critical" || r.severity = "high")).length
    · rw [if_pos h1]
      have hsev : ∃ r ∈ l, (r.category = "compliance" ∨ r.tags.contains "regulatory" = true) ∧
          (r.severity = "critical" ∨ r.severity = "high") := by
        rcases List.exists_mem_of_length_pos h1 with ⟨r, hr⟩
        rw [List.mem_filter] at hr
        rcases hr with ⟨hr1, hr2⟩
        rw [List.mem_filter] at hr1
        exact ⟨r, hr1.1, by simpa using hr1.2, by simpa using hr2⟩
      refine ⟨?_, ?_, ?_⟩
      · constructor
        · intro h
          exact absurd h (by decide)
        · intro hall
          rcases hex with ⟨r, hr, hp⟩
          exact absurd hp (hall r hr)
      · simp only [true_iff]
        exact hsev
      · constructor
        · intro h
          exact absurd h (by decide)
        · rintro ⟨_, hno⟩
          exact absurd hsev hno
    · rw [if_neg h1]
      have hnosev : ¬∃ r ∈ l, (r.category = "compliance" ∨ r.tags.contains "regulatory" = true) ∧
          (r.severity = "critical" ∨ r.severity = "high") := by
        rintro ⟨r, hr, hp, hs⟩
        apply h1
        apply List.length_pos.mpr
        intro hnil
        have : r ∈ ([] : List RiskFactor) := by
          rw [← hnil]
          rw [List.mem_filter]
          constructor
          · rw [List.mem_filter]
            exact ⟨hr, by simpa using hp⟩
          · simpa using hs
        simp at this
      refine ⟨?_, ?_, ?_⟩
      · constructor
        · intro h
          exact absurd h (by decide)
        · intro hall
          rcases hex with ⟨r, hr, hp⟩
          exact absurd hp (hall r hr)
      · constructor
        · intro h
          exact absurd h (by decide)
        · intro hs
          exact absurd hs hnosev
      · simp only [true_iff]
        exact ⟨hex, hnosev⟩

/-- C9: a policy without structured data, or whose structured limit fields
parse to zero, is assigned the fixed default limits bodilyInjury=50000 and
propertyDamage=25000, and every liability check (limit adequacy, asset
protection, umbrella need) evaluates exactly as on the default limits. -/
theorem c9_default_liability_limits (p : Policy) (t : String) (up : UserProfile)
    (h : p.structuredData = none ∨
      ∃ d, p.structuredData = some d ∧ parseLimit d.liabilityLimits = 0 ∧
        parseLimit d.propertyDamage = 0) :
    (extractLiabilityLimits p).bodilyInjury = 50000 ∧
    (extractLiabilityLimits p).propertyDamage = 25000 ∧
    analyzeLiabilityLimits p t up = analyzeLiabilityLimits { structuredData := none } t up ∧
    assessAssetProtection p up = assessAssetProtection { structuredData := none } up ∧
    assessUmbrellaNeed p up = assessUmbrellaNeed { structuredData := none } up := by
  have hbi : (extractLiabilityLimits p).bodilyInjury = 50000 := by
    rcases h with h | ⟨d, hd, h1, h2⟩
    · simp [extractLiabilityLimits, h]
    · simp [extractLiabilityLimits, hd, orDefault, h1]
  have hpd : (extractLiabilityLimits p).propertyDamage = 25000 := by
    rcases h with h | ⟨d, hd, h1, h2⟩
    · simp [extractLiabilityLimits, h]
    · simp [extractLiabilityLimits, hd, orDefault, h2]
  have e1 : (extractLiabilityLimits p).bodilyInjury =
      (extractLiabilityLimits { structuredData := none }).bodilyInjury := by
    rw [hbi]
    rfl
  have e2 : (extractLiabilityLimits p).propertyDamage =
      (extractLiabilityLimits { structuredData := none }).propertyDamage := by
    rw [hpd]
    rfl
  refine ⟨hbi, hpd, ?_, ?_, ?_⟩
  · simp only [analyzeLiabilityLimits, e1, e2]
  · simp only [assessAssetProtection, e1, e2]
  · simp only [assessUmbrellaNeed, e1, e2]

/-- Witness for C9: a policy whose limit strings parse to zero receives the
default limits. -/
theorem c9_witness :
    (extractLiabilityLimits
        { structuredData := some { liabilityLimits := some "N/A", propertyDamage := some "$0" } }).bodilyInjury = 50000 ∧
    (extractLiabilityLimits
        { structuredData := some { liabilityLimits := some "N/A", propertyDamage := some "$0" } }).propertyDamage = 25000 :=
  ⟨(c9_default_liability_limits _ "auto" {}
      (Or.inr ⟨_, rfl, by decide, by decide⟩)).1,
   (c9_default_liability_limits _ "auto" {}
      (Or.inr ⟨_, rfl, by decide, by decide⟩)).2.1⟩

/-- Severity weights are monotone along the severity order. -/
theorem severityWeights_mono (s1 s2 : String) (h1 : s1 ∈ severityOrder) (h2 : s2 ∈ severityOrder)
    (hlt : severityOrder.indexOf s1 < severityOrder.indexOf s2) :
    severityWeights s1 ≤ severityWeights s2 := by
  simp only [severityOrder, List.mem_cons, List.not_mem_nil, or_false] at h1 h2
  rcases h1 with rfl | rfl | rfl | rfl | rfl <;>
    rcases h2 with rfl | rfl | rfl | rfl | rfl <;>
    first | (exfalso; revert hlt; decide) | decide

/-- Every category multiplier is positive. -/
theorem categoryMultipliers10_pos (c : String) : 0 < categoryMultipliers10 c := by
  unfold categoryMultipliers10
  split_ifs <;> omega

/-- C6: raising the severity of one factor (in the order minimal, low,
medium, high, critical), holding its category and the other factors fixed,
never decreases calculateRiskScore. -/
theorem c6_score_monotone_in_severity (pre post : List RiskFactor) (f : RiskFactor)
    (s2 : String) (h1 : f.severity ∈ severityOrder) (h2 : s2 ∈ severityOrder)
    (hlt : severityOrder.indexOf f.severity < severityOrder.indexOf s2) :
    calculateRiskScore (pre ++ f :: post) ≤
      calculateRiskScore (pre ++ { f with severity := s2 } :: post) := by
  set g := fun r : RiskFactor => severityWeights r.severity * categoryMultipliers10 r.category
    with hg
  have hw : severityWeights f.severity ≤ severityWeights s2 := severityWeights_mono _ _ h1 h2 hlt
  have hsum : ((pre ++ f :: post).map g).sum ≤
      ((pre ++ { f with severity := s2 } :: post).map g).sum := by
    simp only [List.map_append, List.map_cons, List.sum_append, List.sum_cons, hg]
    have : severityWeights f.severity * categoryMultipliers10 f.category ≤
        severityWeights s2 * categoryMultipliers10 f.category :=
      mul_le_mul_of_nonneg_right hw (le_of_lt (categoryMultipliers10_pos _))
    omega
  have hlen2 : (pre ++ { f with severity := s2 } :: post).length = (pre ++ f :: post).length := by
    simp
  have hlenpos : ¬((pre ++ f :: post).length = 0) := by
    simp
  have hcrit : severityWeights "critical" = 25 := rfl
  have hden0 : ¬(((pre ++ f :: post).length : ℤ) * (severityWeights "critical" * 13) = 0) := by
    rw [hcrit]
    have : 0 < (pre ++ f :: post).length := Nat.pos_of_ne_zero hlenpos
    omega
  have hround : roundRatio (((pre ++ f :: post).map g).sum * 100)
        (((pre ++ f :: post).length : ℤ) * (severityWeights "critical" * 13)) ≤
      roundRatio (((pre ++ { f with severity := s2 } :: post).map g).sum * 100)
        (((pre ++ f :: post).length : ℤ) * (severityWeights "critical" * 13)) := by
    unfold roundRatio
    have hL : 0 < (pre ++ f :: post).length := Nat.pos_of_ne_zero hlenpos
    have h2b : (0:ℤ) ≤ 2 * (((pre ++ f :: post).length : ℤ) * (severityWeights "critical" * 13)) := by
      rw [hcrit]
      omega
    rw [Int.fdiv_eq_ediv _ h2b, Int.fdiv_eq_ediv _ h2b]
    apply Int.ediv_le_ediv
    · rw [hcrit]
      omega
    · omega
  unfold calculateRiskScore
  simp only [hlen2, if_neg hlenpos, if_neg hden0, ← hg]
  exact min_le_min (le_refl _) (max_le_max (le_refl _) hround)

/-- Witness for C6: raising a single coverage-gap factor from low to
critical severity does not decrease the score. -/
theorem c6_witness :
    calculateRiskScore [{ id := "r", category := "coverage_gaps", severity := "low" }] ≤
      calculateRiskScore [{ id := "r", category := "coverage_gaps", severity := "critical" }] :=
  c6_score_monotone_in_severity [] [] { id := "r", category := "coverage_gaps", severity := "low" }
    "critical" (by decide) (by decide) (by decide)

/-- calculateRiskScore is invariant under permutation of the factor list. -/
theorem calculateRiskScore_perm (l1 l2 : List RiskFactor) (h : l1.Perm l2) :
    calculateRiskScore l1 = calculateRiskScore l2 := by
  have hlen := h.length_eq
  have hsum : (l1.map (fun r => severityWeights r.severity * categoryMultipliers10 r.category)).sum =
      (l2.map (fun r => severityWeights r.severity * categoryMultipliers10 r.category)).sum :=
    (h.map _).sum_eq
  unfold calculateRiskScore
  rw [hlen, hsum]

/-- C1: permuting the analyzer results fed to the aggregation yields a
permuted flat factor list, the identical overall risk score and risk level,
and the same set of critical issues. -/
theorem c1_aggregation_order_invariant (r1 r2 : List (String × AnalyzerResult))
    (h : r1.Perm r2) :
    (aggregateResults r1).Perm (aggregateResults r2) ∧
    calculateRiskScore (aggregateResults r1) = calculateRiskScore (aggregateResults r2) ∧
    determineRiskLevel (calculateRiskScore (aggregateResults r1)) =
      determineRiskLevel (calculateRiskScore (aggregateResults r2)) ∧
    (identifyCriticalIssues (aggregateResults r1)).Perm
      (identifyCriticalIssues (aggregateResults r2)) := by
  have hagg : (aggregateResults r1).Perm (aggregateResults r2) := h.flatMap_right _
  have hscore := calculateRiskScore_perm _ _ hagg
  refine ⟨hagg, hscore, by rw [hscore], ?_⟩
  unfold identifyCriticalIssues
  exact (hagg.filter _).map _

/-- Witness for C1: swapping two concrete analyzer results leaves the
overall score unchanged. -/
theorem c1_witness :
    calculateRiskScore (aggregateResults
      [("coverageGap",
        { success := true,
          risks := [{ id := "g1", category := "coverage_gaps", severity := "critical" }] }),
       ("liability",
        { success := true,
          risks := [{ id := "l1", category := "liability_limits", severity := "medium" }] })]) =
    calculateRiskScore (aggregateResults
      [("liability",
        { success := true,
          risks := [{ id := "l1", category := "liability_limits", severity := "medium" }] }),
       ("coverageGap",
        { success := true,
          risks := [{ id := "g1", category := "coverage_gaps", severity := "critical" }] })]) :=
  (c1_aggregation_order_invariant _ _ (List.Perm.swap _ _ [])).2.1

/-- Counterexample to C3 as stated: an empty (zero-byte) file is provided,
so the inputs are not both absent, yet the run fails fatally at the
validation stage (the claim demands success whenever at least one input is
provided). -/
theorem c3_counterexample :
    (executeAnalysis (fun _ => Except.ok {})
        (some { name := "policy.pdf", size := 0, type := "application/pdf" }) []).success
      = false ∧
    (executeAnalysis (fun _ => Except.ok {})
        (some { name := "policy.pdf", size := 0, type := "application/pdf" }) []).failedStage
      = some "validation" := by
  exact ⟨by decide, by decide⟩

/-- validateFileUpload reports validity exactly when it produced no error. -/
theorem validateFileUpload_isValid (f : JsFile) :
    (validateFileUpload f).isValid = (validateFileUpload f).errors.isEmpty := rfl

/-- Characterization of pipeline input validation: it fails exactly when
both inputs are missing or a provided file fails file validation. -/
theorem validateInputs_isValid_iff (file : Option JsFile) (pd : List (String × String)) :
    (validateInputs file pd).isValid = true ↔
      ¬((file = none ∧ pd = []) ∨ ∃ f, file = some f ∧ (validateFileUpload f).errors ≠ []) := by
  cases file with
  | none =>
      simp only [validateInputs, Option.isNone_none, Bool.true_and]
      cases pd with
      | nil => simp
      | cons hd tl => simp
  | some f =>
      simp only [validateInputs, Option.isNone_some, Bool.false_and]
      by_cases hv : (validateFileUpload f).isValid
      · rw [validateFileUpload_isValid, List.isEmpty_iff] at hv
        simp [hv]
      · have hne : (validateFileUpload f).errors ≠ [] := by
          rw [validateFileUpload_isValid, List.isEmpty_iff] at hv
          exact hv
        simp only [if_neg, hv]
        simp [hne, hv]

/-- C3 amended: the run fails exactly when both the document and the manual
policy data are empty or absent, or a provided file fails file validation
(oversize, empty, unsupported type, or blank name); a failed run names the
validation stage; and the outcome of the run never depends on the document
processor, so document-processing failure cannot fail the run. -/
theorem c3_amended_validation_fatality (proc : JsFile → Except String DocResult)
    (file : Option JsFile) (pd : List (String × String)) :
    ((executeAnalysis proc file pd).success = false ↔
      ((file = none ∧ pd = []) ∨ ∃ f, file = some f ∧ (validateFileUpload f).errors ≠ [])) ∧
    (executeAnalysis proc file pd).failedStage =
      (if (validateInputs file pd).isValid then none else some "validation") ∧
    (executeAnalysis proc file pd).success =
      (executeAnalysis (fun _ => Except.error "processor down") file pd).success := by
  by_cases hv : (validateInputs file pd).isValid
  · have hchar := (validateInputs_isValid_iff file pd).mp hv
    refine ⟨?_, ?_, ?_⟩
    · simp only [executeAnalysis, hv, Bool.not_true, if_neg]
      simp [hchar]
    · simp [executeAnalysis, hv]
    · simp [executeAnalysis, hv]
  · have hchar : ((file = none ∧ pd = []) ∨
        ∃ f, file = some f ∧ (validateFileUpload f).errors ≠ []) := by
      by_contra hno
      exact hv ((validateInputs_isValid_iff file pd).mpr hno)
    refine ⟨?_, ?_, ?_⟩
    · simp only [executeAnalysis, hv]
      simp [hchar]
    · simp [executeAnalysis, hv]
    · simp [executeAnalysis, hv]
/-- Witness for C3 amended: with a valid file and a throwing document
processor the run still succeeds. -/
theorem c3_witness :
    (executeAnalysis (fun _ => Except.error "processor down")
      (some { name := "policy.pdf", size := 1234, type := "application/pdf" }) []).success
      = true := by
  have h := (c3_amended_validation_fatality (fun _ => Except.error "processor down")
    (some { name := "policy.pdf", size := 1234, type := "application/pdf" }) []).1
  revert h
  decide

/-- Witness for C8 amended: an empty factor list is compliant. -/
theorem c8_amended_witness : assessCompliance [] "auto" = "compliant" := by
  have h := (c8_amended_compliance_characterization [] "auto").1
  revert h
  decide

/-! Exact-fraction arithmetic lemmas: under positive denominators the
fraction operations mirror rational arithmetic. -/

theorem Frac.pos_ofInt (n : Int) : (Frac.ofInt n).Pos := by
  simp [Frac.ofInt, Frac.Pos]

theorem Frac.Pos.add {a b : Frac} (ha : a.Pos) (hb : b.Pos) : (a.add b).Pos :=
  mul_pos ha hb

theorem Frac.Pos.sub {a b : Frac} (ha : a.Pos) (hb : b.Pos) : (a.sub b).Pos :=
  mul_pos ha hb

theorem Frac.Pos.mul {a b : Frac} (ha : a.Pos) (hb : b.Pos) : (a.mul b).Pos :=
  mul_pos ha hb

theorem Frac.Pos.div {a b : Frac} (ha : a.Pos) (hbn : 0 < b.num) : (a.div b).Pos :=
  mul_pos ha hbn

theorem Frac.val_ofInt (n : Int) : (Frac.ofInt n).val = (n : ℚ) := by
  simp [Frac.ofInt, Frac.val]

theorem Frac.den_ne {a : Frac} (ha : a.Pos) : ((a.den : ℚ)) ≠ 0 :=
  Int.cast_ne_zero.mpr (ne_of_gt ha)

theorem Frac.val_add {a b : Frac} (ha : a.Pos) (hb : b.Pos) :
    (a.add b).val = a.val + b.val := by
  have hda := Frac.den_ne ha
  have hdb := Frac.den_ne hb
  simp only [Frac.add, Frac.val]
  push_cast
  field_simp

theorem Frac.val_sub {a b : Frac} (ha : a.Pos) (hb : b.Pos) :
    (a.sub b).val = a.val - b.val := by
  have hda := Frac.den_ne ha
  have hdb := Frac.den_ne hb
  simp only [Frac.sub, Frac.val]
  push_cast
  field_simp
  ring

theorem Frac.val_mul (a b : Frac) : (a.mul b).val = a.val * b.val := by
  simp only [Frac.mul, Frac.val, Int.cast_mul]
  rw [div_mul_div_comm]

theorem Frac.val_div (a b : Frac) : (a.div b).val = a.val / b.val := by
  simp only [Frac.div, Frac.val, Int.cast_mul]
  rw [div_div_eq_mul_div, div_mul_eq_mul_div, div_div]

theorem Frac.ble_iff {a b : Frac} (ha : a.Pos) (hb : b.Pos) :
    a.ble b = true ↔ a.val ≤ b.val := by
  have hda : (0:ℚ) < (a.den : ℚ) := by exact_mod_cast ha
  have hdb : (0:ℚ) < (b.den : ℚ) := by exact_mod_cast hb
  simp only [Frac.ble, decide_eq_true_eq, Frac.val]
  rw [div_le_div_iff₀ hda hdb]
  constructor
  · intro h
    exact_mod_cast h
  · intro h
    exact_mod_cast h

theorem Frac.blt_iff {a b : Frac} (ha : a.Pos) (hb : b.Pos) :
    a.blt b = true ↔ a.val < b.val := by
  have hda : (0:ℚ) < (a.den : ℚ) := by exact_mod_cast ha
  have hdb : (0:ℚ) < (b.den : ℚ) := by exact_mod_cast hb
  simp only [Frac.blt, decide_eq_true_eq, Frac.val]
  rw [div_lt_div_iff₀ hda hdb]
  constructor
  · intro h
    exact_mod_cast h
  · intro h
    exact_mod_cast h

theorem Frac.val_fmin {a b : Frac} (ha : a.Pos) (hb : b.Pos) :
    (a.fmin b).val = min a.val b.val := by
  unfold Frac.fmin
  by_cases h : a.ble b = true
  · rw [if_pos h]
    exact (min_eq_left ((Frac.ble_iff ha hb).mp h)).symm
  · have hlt : ¬ a.val ≤ b.val := fun hc => h ((Frac.ble_iff ha hb).mpr hc)
    rw [if_neg h]
    exact (min_eq_right (le_of_not_le hlt)).symm

theorem Frac.val_fmax {a b : Frac} (ha : a.Pos) (hb : b.Pos) :
    (a.fmax b).val = max a.val b.val := by
  unfold Frac.fmax
  by_cases h : a.ble b = true
  · rw [if_pos h]
    exact (max_eq_right ((Frac.ble_iff ha hb).mp h)).symm
  · have hlt : ¬ a.val ≤ b.val := fun hc => h ((Frac.ble_iff ha hb).mpr hc)
    rw [if_neg h]
    exact (max_eq_left (le_of_not_le hlt)).symm

theorem Frac.Pos.fmin {a b : Frac} (ha : a.Pos) (hb : b.Pos) : (a.fmin b).Pos := by
  unfold Frac.fmin
  split_ifs <;> assumption

theorem Frac.Pos.fmax {a b : Frac} (ha : a.Pos) (hb : b.Pos) : (a.fmax b).Pos := by
  unfold Frac.fmax
  split_ifs <;> assumption


/-- checkStructuredPatterns builds a fraction with positive denominator. -/
theorem checkStructuredPatterns_pos (sd : List (String × String))
    (ps : List (String × List String)) : (checkStructuredPatterns sd ps).Pos := by
  unfold checkStructuredPatterns
  dsimp only
  split_ifs with h
  · exact Frac.Pos.div (Frac.pos_ofInt _) (by simp only [Frac.ofInt]; exact_mod_cast h)
  · exact Frac.pos_ofInt _

/-- The structured-pattern match rate lies in the unit interval. -/
theorem checkStructuredPatterns_bounds (sd : List (String × String))
    (ps : List (String × List String)) :
    0 ≤ (checkStructuredPatterns sd ps).val ∧ (checkStructuredPatterns sd ps).val ≤ 1 := by
  unfold checkStructuredPatterns
  dsimp only
  split_ifs with h
  · rw [Frac.val_div, Frac.val_ofInt, Frac.val_ofInt]
    have hq : (0:ℚ) < ((ps.length : ℤ) : ℚ) := by exact_mod_cast h
    constructor
    · positivity
    · rw [div_le_one hq]
      exact_mod_cast List.length_filter_le _ ps
  · simp [Frac.val_ofInt]

/-- Every entry of the POLICY_TYPES table has all four criterion components,
nonempty keyword lists, and no keyword that lower-cases to the empty
string. -/
theorem POLICY_TYPES_shape : ∀ p ∈ POLICY_TYPES, ∃ rk ok ek ps,
    p.2.requiredKeywords = some rk ∧ 0 < rk.length ∧ (∀ k ∈ rk, jsToLower k ≠ "") ∧
    p.2.optionalKeywords = some ok ∧ 0 < ok.length ∧ (∀ k ∈ ok, jsToLower k ≠ "") ∧
    p.2.exclusionKeywords = some ek ∧ (∀ k ∈ ek, jsToLower k ≠ "") ∧
    p.2.structuredPatterns = some ps := by
  intro p hp
  fin_cases hp <;>
    exact ⟨_, _, _, _, rfl, by decide, by decide, rfl, by decide, by decide, rfl,
      by decide, rfl⟩


/-- The 0.4 weight has a positive denominator. -/
theorem wRequired_pos : wRequired.Pos := by
  simp [wRequired, Frac.Pos]

/-- The 0.3 weight has a positive denominator. -/
theorem wOptional_pos : wOptional.Pos := by
  simp [wOptional, Frac.Pos]

/-- Both components of the accumulated (score, weight) pair carry positive
denominators for a table-shaped config. -/
theorem typeScoreRaw_pos (text : String) (sd : List (String × String)) (cfg : TypeConfig)
    (rk ok ek ps : _)
    (hr : cfg.requiredKeywords = some rk) (hrl : 0 < rk.length)
    (ho : cfg.optionalKeywords = some ok) (hol : 0 < ok.length)
    (he : cfg.exclusionKeywords = some ek)
    (hp : cfg.structuredPatterns = some ps) :
    (typeScoreRaw text sd cfg).1.Pos ∧ (typeScoreRaw text sd cfg).2.Pos := by
  simp only [typeScoreRaw, hr, ho, he, hp]
  split_ifs <;>
    constructor <;>
    repeat
      first
      | exact Frac.pos_ofInt _
      | exact wRequired_pos
      | exact wOptional_pos
      | exact checkStructuredPatterns_pos _ _
      | exact (by simp only [Frac.ofInt]; exact_mod_cast hrl)
      | exact (by simp only [Frac.ofInt]; exact_mod_cast hol)
      | apply Frac.Pos.add
      | apply Frac.Pos.sub
      | apply Frac.Pos.mul
      | apply Frac.Pos.fmin
      | apply Frac.Pos.fmax
      | apply Frac.Pos.div

/-- A type score for a table-shaped config is a positive-denominator
fraction whose value lies in the unit interval. -/
theorem calculateTypeScore_props (text : String) (sd : List (String × String)) (cfg : TypeConfig)
    (rk ok ek ps : _)
    (hr : cfg.requiredKeywords = some rk) (hrl : 0 < rk.length)
    (ho : cfg.optionalKeywords = some ok) (hol : 0 < ok.length)
    (he : cfg.exclusionKeywords = some ek)
    (hp : cfg.structuredPatterns = some ps) :
    (calculateTypeScore text sd cfg).Pos ∧
    0 ≤ (calculateTypeScore text sd cfg).val ∧ (calculateTypeScore text sd cfg).val ≤ 1 := by
  obtain ⟨h1pos, h2pos⟩ := typeScoreRaw_pos text sd cfg rk ok ek ps hr hrl ho hol he hp
  unfold calculateTypeScore
  dsimp only
  split_ifs with hb
  · have hnum : 0 < (typeScoreRaw text sd cfg).2.num := by
      simp only [Frac.blt, Frac.ofInt, decide_eq_true_eq] at hb
      omega
    have hy : ((typeScoreRaw text sd cfg).1.div (typeScoreRaw text sd cfg).2).Pos :=
      Frac.Pos.div h1pos hnum
    have h0 : (Frac.ofInt 0).Pos := Frac.pos_ofInt 0
    have h1 : (Frac.ofInt 1).Pos := Frac.pos_ofInt 1
    have hmin := Frac.Pos.fmin h1 hy
    refine ⟨Frac.Pos.fmax h0 hmin, ?_, ?_⟩
    · rw [Frac.val_fmax h0 hmin, Frac.val_ofInt]
      simpa using le_max_left (0:ℚ) _
    · rw [Frac.val_fmax h0 hmin, Frac.val_fmin h1 hy, Frac.val_ofInt, Frac.val_ofInt]
      apply max_le
      · norm_num
      · simpa using min_le_left (1:ℚ) _
  · exact ⟨Frac.pos_ofInt 0, by simp [Frac.val_ofInt]⟩


/-- Every candidate of the classification loop carries the score of some
policy type of the table. -/
theorem mem_classificationsFor (t : String) (sd : List (String × String)) (c : Candidate)
    (hc : c ∈ classificationsFor t sd) :
    ∃ p ∈ POLICY_TYPES, c.confidence = calculateTypeScore t sd p.2 := by
  unfold classificationsFor at hc
  rw [List.mem_filterMap] at hc
  obtain ⟨p, hp, heq⟩ := hc
  dsimp only at heq
  split_ifs at heq with h
  · refine ⟨p, hp, ?_⟩
    have h2 := Option.some.inj heq
    rw [← h2]

/-- Every candidate confidence is a positive-denominator fraction in the
unit interval. -/
theorem candidate_confidence_props (t : String) (sd : List (String × String)) (c : Candidate)
    (hc : c ∈ classificationsFor t sd) :
    c.confidence.Pos ∧ 0 ≤ c.confidence.val ∧ c.confidence.val ≤ 1 := by
  obtain ⟨p, hp, heq⟩ := mem_classificationsFor t sd c hc
  obtain ⟨rk, ok, ek, ps, hr, hrl, _, ho, hol, _, he, _, hps⟩ := POLICY_TYPES_shape p hp
  rw [heq]
  exact calculateTypeScore_props t sd p.2 rk ok ek ps hr hrl ho hol he hps

/-- The 0.6 threshold has a positive denominator. -/
theorem confidenceThreshold_pos : confidenceThreshold.Pos := by
  simp [confidenceThreshold, Frac.Pos]

/-- The threshold value is 0.6. -/
theorem confidenceThreshold_val : confidenceThreshold.val = 6/10 := by
  simp [confidenceThreshold, Frac.val]

/-- C4: the returned confidence lies in the unit interval; isConfident holds
exactly when the confidence reaches 0.6; below the threshold the primary
type is reported as unknown; and the candidate list is still returned (the
ranked list is a permutation of the classification loop output). -/
theorem c4_confidence_threshold (text : String) (sd : List (String × String)) :
    (0 ≤ (classifyPolicy text sd).confidence.val ∧ (classifyPolicy text sd).confidence.val ≤ 1) ∧
    ((classifyPolicy text sd).isConfident = true ↔
      (6/10 : ℚ) ≤ (classifyPolicy text sd).confidence.val) ∧
    ((classifyPolicy text sd).isConfident = false →
      (classifyPolicy text sd).primaryType = "unknown") ∧
    ((classifyPolicy text sd).allClassifications).Perm
      (classificationsFor (jsToLower text) sd) := by
  unfold classifyPolicy
  dsimp only
  have hperm := List.perm_insertionSort
    (fun a b : Candidate => Frac.ble b.confidence a.confidence = true)
    (classificationsFor (jsToLower text) sd)
  cases hs : List.insertionSort (fun a b : Candidate => Frac.ble b.confidence a.confidence = true)
      (classificationsFor (jsToLower text) sd) with
  | nil =>
      rw [hs] at hperm
      refine ⟨⟨?_, ?_⟩, ?_, ?_, ?_⟩
      · show (0:ℚ) ≤ (Frac.ofInt 0).val
        simp [Frac.val_ofInt]
      · show (Frac.ofInt 0).val ≤ 1
        simp [Frac.val_ofInt]
      · show (false = true ↔ (6/10 : ℚ) ≤ (Frac.ofInt 0).val)
        constructor
        · intro h
          cases h
        · intro h
          rw [Frac.val_ofInt] at h
          norm_num at h
      · intro _
        rfl
      · exact hperm
  | cons top rest =>
      rw [hs] at hperm
      have htop : top ∈ classificationsFor (jsToLower text) sd :=
        hperm.mem_iff.mp (List.mem_cons_self _ _)
      obtain ⟨hpos, h0, h1⟩ := candidate_confidence_props _ _ _ htop
      have hiff := Frac.ble_iff confidenceThreshold_pos hpos
      rw [confidenceThreshold_val] at hiff
      refine ⟨⟨h0, h1⟩, hiff, ?_, hperm⟩
      intro hfalse
      have hble : confidenceThreshold.ble top.confidence = false := hfalse
      show (if confidenceThreshold.ble top.confidence = true then top.type else "unknown") =
        "unknown"
      rw [hble]
      simp

/-- No nonempty string occurs inside the empty string. -/
theorem jsIncludes_empty_eq_false (s : String) (h : s ≠ "") : jsIncludes "" s = false := by
  have hform : jsIncludes "" s = s.data.isEmpty := rfl
  rw [hform]
  cases hd : s.data with
  | nil =>
      exfalso
      apply h
      apply String.ext
      rw [hd]
  | cons c t => rfl

/-- On empty text no keyword of a nonblank keyword list matches. -/
theorem filter_jsIncludes_empty (ks : List String) (hk : ∀ k ∈ ks, jsToLower k ≠ "") :
    ks.filter (fun k => jsIncludes "" (jsToLower k)) = [] := by
  rw [List.filter_eq_nil_iff]
  intro k hkk
  rw [jsIncludes_empty_eq_false _ (hk k hkk)]
  exact Bool.false_ne_true

/-- On empty text a table-shaped config can score at most 0.3 (only the
structured-pattern component can contribute). -/
theorem calculateTypeScore_empty_text (sd : List (String × String)) (cfg : TypeConfig)
    (rk ok ek ps : _)
    (hr : cfg.requiredKeywords = some rk) (hrl : 0 < rk.length)
    (hkr : ∀ k ∈ rk, jsToLower k ≠ "")
    (ho : cfg.optionalKeywords = some ok) (hol : 0 < ok.length)
    (hko : ∀ k ∈ ok, jsToLower k ≠ "")
    (he : cfg.exclusionKeywords = some ek) (hke : ∀ k ∈ ek, jsToLower k ≠ "")
    (hp : cfg.structuredPatterns = some ps) :
    (calculateTypeScore "" sd cfg).val ≤ 3/10 := by
  have hfr := filter_jsIncludes_empty rk hkr
  have hfo := filter_jsIncludes_empty ok hko
  have hfe := filter_jsIncludes_empty ek hke
  have hq0 : (Frac.ofInt 0).Pos := Frac.pos_ofInt 0
  have hq1 : (Frac.ofInt 1).Pos := Frac.pos_ofInt 1
  have hlenr : (0:ℤ) < ((rk.length : ℤ)) := by exact_mod_cast hrl
  have hleno : (0:ℤ) < ((ok.length : ℤ)) := by exact_mod_cast hol
  have ht1 : ((Frac.ofInt 0).div (Frac.ofInt rk.length)).Pos :=
    Frac.Pos.div hq0 (by simpa [Frac.ofInt] using hlenr)
  have ht2 : ((Frac.ofInt 0).div (Frac.ofInt ok.length)).Pos :=
    Frac.Pos.div hq0 (by simpa [Frac.ofInt] using hleno)
  have hv1 : ((Frac.ofInt 0).div (Frac.ofInt rk.length)).val = 0 := by
    rw [Frac.val_div, Frac.val_ofInt]
    simp
  have hv2 : ((Frac.ofInt 0).div (Frac.ofInt ok.length)).val = 0 := by
    rw [Frac.val_div, Frac.val_ofInt]
    simp
  have hcs := checkStructuredPatterns_pos sd ps
  have hcsb := checkStructuredPatterns_bounds sd ps
  -- name the accumulated pair on empty text
  have hraw : typeScoreRaw "" sd cfg =
      (((Frac.ofInt 0).add (((Frac.ofInt 0).div (Frac.ofInt rk.length)).mul wRequired)).add
          (((((Frac.ofInt 0).div (Frac.ofInt ok.length)).fmin (Frac.ofInt 1)).mul wOptional)) |>.add
          ((checkStructuredPatterns sd ps).mul wOptional),
        (((Frac.ofInt 0).add wRequired).add wOptional).add wOptional) := by
    simp only [typeScoreRaw, hr, ho, he, hp, hfr, hfo, hfe, List.length_nil]
    norm_num
  have hs1 : ((Frac.ofInt 0).add (((Frac.ofInt 0).div (Frac.ofInt rk.length)).mul wRequired)).Pos :=
    Frac.Pos.add hq0 (Frac.Pos.mul ht1 wRequired_pos)
  have hs2 : (((((Frac.ofInt 0).div (Frac.ofInt ok.length)).fmin (Frac.ofInt 1)).mul wOptional)).Pos :=
    Frac.Pos.mul (Frac.Pos.fmin ht2 hq1) wOptional_pos
  have hs3 : ((checkStructuredPatterns sd ps).mul wOptional).Pos :=
    Frac.Pos.mul hcs wOptional_pos
  have hraw1pos : (typeScoreRaw "" sd cfg).1.Pos := by
    rw [hraw]
    exact Frac.Pos.add (Frac.Pos.add hs1 hs2) hs3
  have hraw2pos : (typeScoreRaw "" sd cfg).2.Pos := by
    rw [hraw]
    exact Frac.Pos.add (Frac.Pos.add (Frac.Pos.add hq0 wRequired_pos) wOptional_pos) wOptional_pos
  have hwOv : wOptional.val = 3/10 := by
    simp [wOptional, Frac.val]
  have hraw1val : (typeScoreRaw "" sd cfg).1.val =
      (checkStructuredPatterns sd ps).val * (3/10) := by
    rw [hraw]
    rw [Frac.val_add (Frac.Pos.add hs1 hs2) hs3, Frac.val_add hs1 hs2,
      Frac.val_add hq0 (Frac.Pos.mul ht1 wRequired_pos), Frac.val_mul, hv1,
      Frac.val_mul, Frac.val_fmin ht2 hq1, hv2, Frac.val_mul, hwOv]
    simp only [Frac.val_ofInt]
    norm_num
  have hraw2val : (typeScoreRaw "" sd cfg).2.val = 1 := by
    rw [hraw]
    rw [Frac.val_add (Frac.Pos.add (Frac.Pos.add hq0 wRequired_pos) wOptional_pos) wOptional_pos,
      Frac.val_add (Frac.Pos.add hq0 wRequired_pos) wOptional_pos,
      Frac.val_add hq0 wRequired_pos, Frac.val_ofInt, hwOv]
    simp [wRequired, Frac.val]
    norm_num
  unfold calculateTypeScore
  dsimp only
  split_ifs with hb
  · have hnum : 0 < (typeScoreRaw "" sd cfg).2.num := by
      simp only [Frac.blt, Frac.ofInt, decide_eq_true_eq] at hb
      omega
    have hy : ((typeScoreRaw "" sd cfg).1.div (typeScoreRaw "" sd cfg).2).Pos :=
      Frac.Pos.div hraw1pos hnum
    have hyval : ((typeScoreRaw "" sd cfg).1.div (typeScoreRaw "" sd cfg).2).val =
        (checkStructuredPatterns sd ps).val * (3/10) := by
      rw [Frac.val_div, hraw1val, hraw2val, div_one]
    have hmin := Frac.Pos.fmin hq1 hy
    rw [Frac.val_fmax hq0 hmin, Frac.val_fmin hq1 hy, Frac.val_ofInt, Frac.val_ofInt, hyval]
    apply max_le
    · norm_num
    · apply le_trans (min_le_right _ _)
      nlinarith [hcsb.1, hcsb.2]
  · rw [Frac.val_ofInt]
    norm_num


/-- Counterexample to C5 as stated: for empty text with structured data
carrying policyType auto, the auto candidate scores 0.15, not zero, and the
candidate list is nonempty. -/
theorem c5_counterexample :
    (classifyPolicy "" [("policyType", "auto")]).confidence.val ≠ 0 ∧
    (classifyPolicy "" [("policyType", "auto")]).allClassifications ≠ [] := by
  constructor
  · have h : (classifyPolicy "" [("policyType", "auto")]).confidence = ⟨16500000, 110000000⟩ := by
      decide
    rw [h]
    show ((16500000 : ℤ) : ℚ) / ((110000000 : ℤ) : ℚ) ≠ 0
    norm_num
  · decide

/-- C5 amended: classifyPolicy is total (success is always reported), empty
text with empty structured data yields all-zero type scores, and for every
structured-data input the primary type on empty text is unknown. -/
theorem c5_amended_empty_text :
    (∀ p ∈ POLICY_TYPES, (calculateTypeScore "" [] p.2).val = 0) ∧
    (∀ sd, (classifyPolicy "" sd).primaryType = "unknown" ∧
      (classifyPolicy "" sd).success = true) := by
  constructor
  · intro p hp
    have hnum : (calculateTypeScore "" [] p.2).num = 0 := by
      fin_cases hp <;> decide
    unfold Frac.val
    rw [hnum]
    simp
  · intro sd
    unfold classifyPolicy
    dsimp only
    have hlow : jsToLower "" = "" := rfl
    have hperm := List.perm_insertionSort
      (fun a b : Candidate => Frac.ble b.confidence a.confidence = true)
      (classificationsFor (jsToLower "") sd)
    cases hs : List.insertionSort
        (fun a b : Candidate => Frac.ble b.confidence a.confidence = true)
        (classificationsFor (jsToLower "") sd) with
    | nil => exact ⟨rfl, rfl⟩
    | cons top rest =>
        rw [hs] at hperm
        have htop : top ∈ classificationsFor (jsToLower "") sd :=
          hperm.mem_iff.mp (List.mem_cons_self _ _)
        have hpos := (candidate_confidence_props _ _ _ htop).1
        obtain ⟨p, hp, heq⟩ := mem_classificationsFor _ _ _ htop
        obtain ⟨rk, ok, ek, ps, hr, hrl, hkr, ho, hol, hko, he, hke, hps⟩ :=
          POLICY_TYPES_shape p hp
        have hle : (calculateTypeScore "" sd p.2).val ≤ 3/10 :=
          calculateTypeScore_empty_text sd p.2 rk ok ek ps hr hrl hkr ho hol hko he hke hps
        have hble : confidenceThreshold.ble top.confidence = false := by
          by_contra hbt
          have hbt2 : confidenceThreshold.ble top.confidence = true :=
            Bool.ne_false_iff.mp hbt
          have hge := (Frac.ble_iff confidenceThreshold_pos hpos).mp hbt2
          rw [confidenceThreshold_val, heq, hlow] at hge
          linarith
        constructor
        · show (if confidenceThreshold.ble top.confidence = true then top.type
            else "unknown") = "unknown"
          rw [hble]
          simp
        · rfl

/-- Witness for C5 amended: the first table entry scores zero on empty
inputs and a concrete structured-data input still reports unknown. -/
theorem c5_witness :
    (calculateTypeScore "" [] (POLICY_TYPES.get ⟨0, by decide⟩).2).val = 0 ∧
    (classifyPolicy "" [("coverageType", "health")]).primaryType = "unknown" :=
  ⟨c5_amended_empty_text.1 _ (List.get_mem _ _ _),
   (c5_amended_empty_text.2 [("coverageType", "health")]).1⟩

/-- Witness for C4: on empty inputs the classifier is not confident and
reports unknown. -/
theorem c4_witness : (classifyPolicy "" []).primaryType = "unknown" :=
  (c4_confidence_threshold "" []).2.2.1 (by decide)


end PolicyAI
